/-
Verification of the meta_data_utils metadata pipeline (MetOffice/rose_picker).

This file gives a shallow embedding, in Lean 4, of the parts of the Python
source that the verified properties talk about:

  * dimension_parser.translate_vertical_dimension (regex-based translation
    of vertical-dimension constructor calls),
  * file_validator.validate_names (the four-name consistency validator),
  * json_meta_data.write_json_meta / set_checksum and
    widget/vertical_dimension_util.ConfigFiles.add_json_meta /
    create_md5_checksum (checksummed JSON snapshot writer and reader,
    including a full executable MD5 and a model of json.dumps with
    sort_keys=True),
  * field_validator.validate_field,
  * fortran_reader.FortranMetaDataReader.find_nsd (the non-spatial
    dimension registry),
  * fortran_reader.FortranMetaDataReader.read_fortran_files (modelling the
    local-variable environment so that unbound-name lookups surface as
    NameError values),
  * the serialization tail of diag_meta_gen.run, and
  * the model_levels_for_group block of rose_config_creator.create_rose_meta
    (parametrised by the iteration order of the Python set it loops over).

Python strings are modelled as lists of characters; the handful of regular
expressions used by the source are compiled by hand into executable search
functions whose backtracking behaviour mirrors Python's re.search.
-/
import Mathlib

set_option maxRecDepth 20000

deriving instance DecidableEq for Except

namespace RosePicker

/-- Python strings are modelled as lists of characters. -/
abbrev Str := List Char

/-- Abbreviation turning a Lean string literal into the model type. -/
def strL (s : String) : Str := s.toList

/-! ### Character classes used by the source's regular expressions -/

/-- Character class [a-zA-Z_] (dimension_parser.DIMENSION_TYPE_REGEX and the
top/bottom argument classes). -/
def isAlphaUnd (c : Char) : Bool :=
  (('a' ≤ c && c ≤ 'z') || ('A' ≤ c && c ≤ 'Z') || c = '_')

/-- Character class [a-zA-Z_0-9] used by every section__group name regex. -/
def isWordChar (c : Char) : Bool :=
  isAlphaUnd c || ('0' ≤ c && c ≤ '9')

/-- Character class [\s=] from TOP_ARG_REGEX / BOTTOM_ARG_REGEX; \s is the
ASCII whitespace set (the source only ever feeds it ASCII Fortran text). -/
def isSpaceEq (c : Char) : Bool :=
  c = ' ' || c = '\t' || c = '\n' || c = '\x0b' || c = '\x0c' || c = '\r' || c = '='

/-- Character class [\d.] from LEVEL_DEF_REGEX. -/
def isDigitDot (c : Char) : Bool :=
  c.isDigit || c = '.'

/-! ### Generic search helpers -/

/-- Leftmost-match search: re.search tries the pattern at offsets 0,1,2,...
and returns the first position where it matches. -/
def searchFrom (f : Str → Option α) : Str → Option α
  | [] => f []
  | s@(_ :: t) =>
    match f s with
    | some r => some r
    | none => searchFrom f t

/-- Substring test (the Python expression pat in s). -/
def containsSub (pat : Str) : Str → Bool
  | [] => pat.isPrefixOf []
  | s@(_ :: t) => pat.isPrefixOf s || containsSub pat t

/-- Maximal runs of characters satisfying p, in order; this is exactly what
re.findall returns for a pattern of the shape [class]+. -/
def runsOf (p : Char → Bool) : Str → List Str
  | [] => []
  | c :: t =>
    let r := runsOf p t
    if p c then
      match t, r with
      | t0 :: _, run :: rs => if p t0 then (c :: run) :: rs else [c] :: r
      | _, _ => [c] :: r
    else r

/-! ### dimension_parser.py: the four regexes and
translate_vertical_dimension -/

/-- Match of DIMENSION_TYPE_REGEX = ([a-zA-Z_]+)[\s]*\([^)]*\) at one
position.  All adjacent pieces act on disjoint character classes, so greedy
matching needs no backtracking: a maximal [a-zA-Z_]+ run, optional spaces,
a literal parenthesis, a maximal run of non-parenthesis characters, and the
closing parenthesis. -/
def dimTypeMatchAt (s : Str) : Option Str :=
  let ty := s.takeWhile isAlphaUnd
  if ty.isEmpty then none
  else
    let rest := (s.drop ty.length).dropWhile (fun c =>
      c = ' ' || c = '\t' || c = '\n' || c = '\x0b' || c = '\x0c' || c = '\r')
    match rest with
    | '(' :: r =>
      match r.dropWhile (· ≠ ')') with
      | ')' :: _ => some ty
      | _ => none
    | _ => none

/-- re.search with DIMENSION_TYPE_REGEX; the group named type. -/
def dimTypeSearch : Str → Option Str := searchFrom dimTypeMatchAt

/-- Match of lit[\s=]*([A-Za-z_]+) at one position, for a literal prefix lit
(used with top and bottom).  The classes [\s=] and [A-Za-z_] are disjoint,
so the greedy skip never needs to backtrack. -/
def argMatchAt (lit : Str) (s : Str) : Option Str :=
  if lit.isPrefixOf s then
    let r := (s.drop lit.length).dropWhile isSpaceEq
    let arg := r.takeWhile isAlphaUnd
    if arg.isEmpty then none else some arg
  else none

/-- re.search with TOP_ARG_REGEX = top[\s=]*(?P<top_arg>[A-Za-z_]+). -/
def topSearch : Str → Option Str := searchFrom (argMatchAt (strL "top"))

/-- re.search with BOTTOM_ARG_REGEX = bottom[\s=]*(?P<bottom_arg>[A-Za-z_]+). -/
def bottomSearch : Str → Option Str := searchFrom (argMatchAt (strL "bottom"))

/-- re.findall with LEVEL_DEF_REGEX = ([\d.]+). -/
def levelFindall (s : Str) : List Str := runsOf isDigitDot s

/-- Result dictionary of translate_vertical_dimension.  The keys top_arg,
bottom_arg and level_definition are only set on some paths, hence Option;
units, positive and standard_name are always set before a successful
return.  Python's float() conversion of the level tokens is kept as the
source token (no verified property depends on the numeric value). -/
structure VertDim where
  top_arg : Option Str := none
  bottom_arg : Option Str := none
  level_definition : Option (List Str) := none
  units : Str
  positive : Str
  standard_name : Str
deriving DecidableEq

/-- Tail of translate_vertical_dimension from the line
parsed_definition[&quot;units&quot;] = "m" onwards (source lines 114-128). -/
def finishVertical (ty : Str) (t b : Option Str) (fixed : List Str) :
    Except String VertDim :=
  let lvl := if fixed.isEmpty then none else some fixed
  if containsSub (strL "height") ty then
    .ok { top_arg := t, bottom_arg := b, level_definition := lvl,
          units := strL "m", positive := strL "POSITIVE_UP",
          standard_name := strL "height" }
  else if containsSub (strL "depth") ty then
    .ok { top_arg := t, bottom_arg := b, level_definition := lvl,
          units := strL "m", positive := strL "POSITIVE_DOWN",
          standard_name := strL "depth" }
  else .error "Attribute 'positive' has been declared incorrectly"

/-- dimension_parser.translate_vertical_dimension (source lines 85-131).
When DIMENSION_TYPE_REGEX finds no match the Python code calls .group on
None and raises AttributeError; raised exceptions are modelled as error
results carrying the exception message. -/
def translate_vertical_dimension (s : Str) : Except String VertDim :=
  match dimTypeSearch s with
  | none => .error "AttributeError: 'NoneType' object has no attribute 'group'"
  | some ty =>
    if containsSub (strL "model") ty then
      match topSearch s with
      | none => .error "Top model level not declared"
      | some t =>
        match bottomSearch s with
        | none => .error "Bottom model level not declared"
        | some b => finishVertical ty (some t) (some b) (levelFindall s)
    else finishVertical ty none none (levelFindall s)

/-! ### Claim C6: translate_vertical_dimension -/

/-- On success, finishVertical always sets units to "m". -/
theorem finishVertical_units (ty : Str) (t b : Option Str) (fixed : List Str)
    (vd : VertDim) (h : finishVertical ty t b fixed = .ok vd) :
    vd.units = strL "m" := by
  unfold finishVertical at h
  split_ifs at h <;> cases h <;> rfl

/-- When the type name contains neither height nor depth, finishVertical
raises (source line 128). -/
theorem finishVertical_error (ty : Str) (t b : Option Str) (fixed : List Str)
    (h1 : containsSub (strL "height") ty = false)
    (h2 : containsSub (strL "depth") ty = false) :
    finishVertical ty t b fixed
      = .error "Attribute 'positive' has been declared incorrectly" := by
  unfold finishVertical
  simp [h1, h2]

/-- C6: translate_vertical_dimension applied to
"model_height_dimension(bottom=B, top=T)" returns exactly the dictionary
with standard_name "height", units "m", top_arg "T", bottom_arg "B" and
positive "POSITIVE_UP"; for every declaration whose extracted type name
contains "model", failure of the top= argument search (or of the bottom=
argument search) raises; for every declaration whose type name contains
neither "height" nor "depth" the call raises; and every successful result
has units "m". -/
theorem c6_translate_vertical_dimension :
    (translate_vertical_dimension (strL "model_height_dimension(bottom=B, top=T)")
      = .ok { top_arg := some (strL "T"), bottom_arg := some (strL "B"),
              level_definition := none, units := strL "m",
              positive := strL "POSITIVE_UP", standard_name := strL "height" })
    ∧ (∀ s ty, dimTypeSearch s = some ty →
        containsSub (strL "model") ty = true →
        topSearch s = none →
        translate_vertical_dimension s = .error "Top model level not declared")
    ∧ (∀ s ty t, dimTypeSearch s = some ty →
        containsSub (strL "model") ty = true →
        topSearch s = some t →
        bottomSearch s = none →
        translate_vertical_dimension s
          = .error "Bottom model level not declared")
    ∧ (∀ s ty, dimTypeSearch s = some ty →
        containsSub (strL "height") ty = false →
        containsSub (strL "depth") ty = false →
        ∃ e, translate_vertical_dimension s = .error e)
    ∧ (∀ s vd, translate_vertical_dimension s = .ok vd →
        vd.units = strL "m") := by
  refine ⟨by decide, ?_, ?_, ?_, ?_⟩
  · intro s ty hty hmodel htop
    simp [translate_vertical_dimension, hty, hmodel, htop]
  · intro s ty t hty hmodel htop hbot
    simp [translate_vertical_dimension, hty, hmodel, htop, hbot]
  · intro s ty hty hh hd
    simp only [translate_vertical_dimension, hty]
    by_cases hm : containsSub (strL "model") ty = true
    · simp only [hm, if_true]
      cases topSearch s with
      | none => exact ⟨_, rfl⟩
      | some t =>
        cases bottomSearch s with
        | none => exact ⟨_, rfl⟩
        | some b => exact ⟨_, finishVertical_error ty _ _ _ hh hd⟩
    · simp only [Bool.not_eq_true] at hm
      simp only [hm, Bool.false_eq_true, if_false]
      exact ⟨_, finishVertical_error ty _ _ _ hh hd⟩
  · intro s vd h
    cases hty : dimTypeSearch s with
    | none => simp only [translate_vertical_dimension, hty] at h; cases h
    | some ty =>
      simp only [translate_vertical_dimension, hty] at h
      by_cases hm : containsSub (strL "model") ty = true
      · rw [if_pos hm] at h
        cases htop : topSearch s with
        | none => rw [htop] at h; cases h
        | some t =>
          rw [htop] at h
          cases hbot : bottomSearch s with
          | none => rw [hbot] at h; cases h
          | some b =>
            rw [hbot] at h
            exact finishVertical_units _ _ _ _ _ h
      · rw [if_neg hm] at h
        exact finishVertical_units _ _ _ _ _ h

/-- Witness instantiating every hypothesis of c6_translate_vertical_dimension
at concrete declarations. -/
theorem c6_translate_vertical_dimension_witness :
    translate_vertical_dimension (strL "model_height_dimension(bottom=B)")
      = .error "Top model level not declared"
    ∧ translate_vertical_dimension (strL "model_depth_dimension(top=T)")
      = .error "Bottom model level not declared"
    ∧ (∃ e, translate_vertical_dimension (strL "fixed_dimension()") = .error e)
    ∧ ({ top_arg := some (strL "T"), bottom_arg := some (strL "B"),
         level_definition := none, units := strL "m",
         positive := strL "POSITIVE_UP",
         standard_name := strL "height" } : VertDim).units = strL "m" := by
  refine ⟨?_, ?_, ?_, ?_⟩
  · exact c6_translate_vertical_dimension.2.1
      (strL "model_height_dimension(bottom=B)")
      (strL "model_height_dimension") (by decide) (by decide) (by decide)
  · exact c6_translate_vertical_dimension.2.2.1
      (strL "model_depth_dimension(top=T)")
      (strL "model_depth_dimension") (strL "T")
      (by decide) (by decide) (by decide) (by decide)
  · exact c6_translate_vertical_dimension.2.2.2.1
      (strL "fixed_dimension()") (strL "fixed_dimension")
      (by decide) (by decide) (by decide)
  · exact c6_translate_vertical_dimension.2.2.2.2
      (strL "model_height_dimension(bottom=B, top=T)") _ (by decide)

/-! ### file_validator.py: the section__group name regexes and
validate_names

Every regex in file_validator.py has the shape
  ([a-zA-Z_0-9]+?)__([a-zA-Z_0-9]+)SUFFIX
searched with re.search.  The first group is lazy (shortest first), the
second greedy (longest first, backtracking against the suffix, which may
itself start with an underscore and therefore overlaps the class). -/

/-- Greedy descent for the second group: k characters of the word-character
run (longest first, at least one), such that the suffix matcher accepts the
remainder. -/
def greedyG2 (sfx : Str → Bool) (rest : Str) : Nat → Option Str
  | 0 => none
  | k + 1 =>
    if sfx (rest.drop (k + 1)) then some (rest.take (k + 1))
    else greedyG2 sfx rest k

/-- Lazy first group: extend one word character at a time (shortest first);
after each extension try the literal "__", the greedy second group and the
suffix. -/
def lazyG1 (sfx : Str → Bool) (acc : Str) : Str → Option (Str × Str)
  | [] => none
  | c :: t =>
    if isWordChar c then
      let attempt :=
        if (strL "__").isPrefixOf t then
          let rest := t.drop 2
          (greedyG2 sfx rest (rest.takeWhile isWordChar).length).map
            (fun g2 => (acc ++ [c], g2))
        else none
      match attempt with
      | some r => some r
      | none => lazyG1 sfx (acc ++ [c]) t
    else none

/-- re.search for a ([a-zA-Z_0-9]+?)__([a-zA-Z_0-9]+)SUFFIX pattern:
leftmost start, lazy first group, greedy second group.  Returns the
(section_name, group_name) capture pair. -/
def pairSearch (sfx : Str → Bool) : Str → Option (Str × Str) :=
  searchFrom (lazyG1 sfx [])

/-- Suffix matcher for MODULE_NAME_REGEX: the literal __meta_mod. -/
def moduleSfx (r : Str) : Bool := (strL "__meta_mod").isPrefixOf r

/-- Suffix matcher for META_TYPE_NAME_REGEX: the literal __meta_type. -/
def metaTypeSfx (r : Str) : Bool := (strL "__meta_type").isPrefixOf r

/-- Suffix matcher for FILE_NAME_REGEX in file_validator.py:
__meta_mod.f90 where the unescaped dot matches any character except a
newline. -/
def fileSfx (r : Str) : Bool :=
  (strL "__meta_mod").isPrefixOf r &&
    (match r.drop 10 with
     | c :: rest => c ≠ '\n' && (strL "f90").isPrefixOf rest
     | [] => false)

/-- re.search with FILE_NAME_REGEX of file_validator.py. -/
def fileNameSearch : Str → Option (Str × Str) := pairSearch fileSfx

/-- re.search with MODULE_NAME_REGEX. -/
def moduleNameSearch : Str → Option (Str × Str) := pairSearch moduleSfx

/-- re.search with META_TYPE_NAME_REGEX. -/
def metaTypeNameSearch : Str → Option (Str × Str) := pairSearch metaTypeSfx

/-- re.search with GROUP_NAME_REGEX (no suffix after the second group). -/
def groupNameSearch : Str → Option (Str × Str) := pairSearch (fun _ => true)

/-- One constructor per LOGGER.error site of validate_names, in source
order. -/
inductive NameErr where
  /-- There is no group name (source line 48). -/
  | noGroupName
  /-- Filename in path is not correct (line 58). -/
  | badFileName
  /-- Module in file is not correct (line 62). -/
  | badModuleName
  /-- meta_type_name in file is not correct (line 67). -/
  | badMetaTypeName
  /-- group_name in file is not correct (line 72). -/
  | badGroupName
  /-- Section names do not match, module vs file (line 92). -/
  | moduleFileSectionMismatch
  /-- Group names do not match, module vs file (line 98). -/
  | moduleFileGroupMismatch
  /-- Bad module name, module group vs meta type group (line 104). -/
  | moduleMetaTypeGroupMismatch
  /-- Bad meta_type name, module section vs meta type section (line 110). -/
  | moduleMetaTypeSectionMismatch
  /-- Section names do not match, declared group name vs file (line 116). -/
  | groupFileSectionMismatch
  /-- Group names do not match, declared group name vs file (line 122). -/
  | groupFileGroupMismatch
deriving DecidableEq

/-- file_validator.validate_names (source lines 36-127), returning the final
valid flag together with the list of logged errors in log order.  A missing
group name (None in Python) returns immediately; the six cross-comparisons
run only when all four regexes matched. -/
def validate_names (file_name module_name meta_type_name : Str)
    (group_name : Option Str) : Bool × List NameErr :=
  match group_name with
  | none => (false, [.noGroupName])
  | some gname =>
    let fp := fileNameSearch file_name
    let mp := moduleNameSearch module_name
    let tp := metaTypeNameSearch meta_type_name
    let gp := groupNameSearch gname
    let e1 : List NameErr := if fp = none then [.badFileName] else []
    let e2 : List NameErr := if mp = none then [.badModuleName] else []
    let e3 : List NameErr := if tp = none then [.badMetaTypeName] else []
    let e4 : List NameErr := if gp = none then [.badGroupName] else []
    let cmps : List NameErr :=
      match fp, mp, tp, gp with
      | some (fs, fg), some (ms, mg), some (ts, tg), some (gs, gg) =>
        (if ms ≠ fs then [.moduleFileSectionMismatch] else [])
          ++ (if mg ≠ fg then [.moduleFileGroupMismatch] else [])
          ++ (if mg ≠ tg then [.moduleMetaTypeGroupMismatch] else [])
          ++ (if ms ≠ ts then [.moduleMetaTypeSectionMismatch] else [])
          ++ (if gs ≠ fs then [.groupFileSectionMismatch] else [])
          ++ (if gg ≠ fg then [.groupFileGroupMismatch] else [])
      | _, _, _, _ => []
    let errs := e1 ++ e2 ++ e3 ++ e4 ++ cmps
    (errs.isEmpty, errs)

/-! ### Claim C8: the four-name validator scenario -/

/-- C8 counterexample: with the file name "sec__grp__meta.ext" from the
claim, FILE_NAME_REGEX (which demands a __meta_mod.f90-shaped suffix) does
not match, so validate_names logs the file-name pattern error and never
reaches the module/type section comparison: the logged errors are exactly
[badFileName], not [moduleMetaTypeSectionMismatch] as the claim requires. -/
theorem c8_validate_names_counterexample :
    validate_names (strL "sec__grp__meta.ext") (strL "sec__grp__meta_mod")
        (strL "other__grp__meta_type") (some (strL "sec__grp"))
      = (false, [NameErr.badFileName])
    ∧ ((false, [NameErr.badFileName]) : Bool × List NameErr)
      ≠ (false, [NameErr.moduleMetaTypeSectionMismatch]) := by
  exact ⟨by decide, by decide⟩

/-- C8 amended: with a file name that matches the file-name pattern,
"sec__grp__meta_mod.f90", and the other three names as in the claim,
validate_names returns invalid failing exactly on the module/type
section-name mismatch (the "Bad meta_type name" check); every other check
passes. -/
theorem c8_validate_names_amended :
    validate_names (strL "sec__grp__meta_mod.f90") (strL "sec__grp__meta_mod")
        (strL "other__grp__meta_type") (some (strL "sec__grp"))
      = (false, [NameErr.moduleMetaTypeSectionMismatch]) := by
  decide

/-! ### MD5 (RFC 1321), executable over byte lists

hashlib.md5 is embedded as a full executable MD5 over lists of byte values
(Nat below 256), with 32-bit words as Nat reduced modulo 2^32. -/

/-- Left-rotation of a 32-bit word (x below 2^32). -/
def rotl32 (x s : Nat) : Nat :=
  ((x <<< s) % 4294967296) ||| (x >>> (32 - s))

/-- Bitwise complement of a 32-bit word. -/
def not32 (x : Nat) : Nat := 4294967295 ^^^ x

/-- MD5 sine-derived constant table K. -/
def md5K : List Nat :=
  [0xd76aa478, 0xe8c7b756, 0x242070db, 0xc1bdceee,
   0xf57c0faf, 0x4787c62a, 0xa8304613, 0xfd469501,
   0x698098d8, 0x8b44f7af, 0xffff5bb1, 0x895cd7be,
   0x6b901122, 0xfd987193, 0xa679438e, 0x49b40821,
   0xf61e2562, 0xc040b340, 0x265e5a51, 0xe9b6c7aa,
   0xd62f105d, 0x02441453, 0xd8a1e681, 0xe7d3fbc8,
   0x21e1cde6, 0xc33707d6, 0xf4d50d87, 0x455a14ed,
   0xa9e3e905, 0xfcefa3f8, 0x676f02d9, 0x8d2a4c8a,
   0xfffa3942, 0x8771f681, 0x6d9d6122, 0xfde5380c,
   0xa4beea44, 0x4bdecfa9, 0xf6bb4b60, 0xbebfbc70,
   0x289b7ec6, 0xeaa127fa, 0xd4ef3085, 0x04881d05,
   0xd9d4d039, 0xe6db99e5, 0x1fa27cf8, 0xc4ac5665,
   0xf4292244, 0x432aff97, 0xab9423a7, 0xfc93a039,
   0x655b59c3, 0x8f0ccc92, 0xffeff47d, 0x85845dd1,
   0x6fa87e4f, 0xfe2ce6e0, 0xa3014314, 0x4e0811a1,
   0xf7537e82, 0xbd3af235, 0x2ad7d2bb, 0xeb86d391]

/-- MD5 per-round shift table S. -/
def md5S : List Nat :=
  [7, 12, 17, 22, 7, 12, 17, 22, 7, 12, 17, 22, 7, 12, 17, 22,
   5, 9, 14, 20, 5, 9, 14, 20, 5, 9, 14, 20, 5, 9, 14, 20,
   4, 11, 16, 23, 4, 11, 16, 23, 4, 11, 16, 23, 4, 11, 16, 23,
   6, 10, 15, 21, 6, 10, 15, 21, 6, 10, 15, 21, 6, 10, 15, 21]

/-- One MD5 round i acting on state (a, b, c, d) with message words w. -/
def md5Step (w : List Nat) (st : Nat × Nat × Nat × Nat) (i : Nat) :
    Nat × Nat × Nat × Nat :=
  let (a, b, c, d) := st
  let f :=
    if i < 16 then (b &&& c) ||| (not32 b &&& d)
    else if i < 32 then (d &&& b) ||| (not32 d &&& c)
    else if i < 48 then b ^^^ c ^^^ d
    else c ^^^ (b ||| not32 d)
  let g :=
    if i < 16 then i
    else if i < 32 then (5 * i + 1) % 16
    else if i < 48 then (3 * i + 5) % 16
    else (7 * i) % 16
  let tmp := (f + a + md5K.getD i 0 + w.getD g 0) % 4294967296
  (d, (b + rotl32 tmp (md5S.getD i 0)) % 4294967296, b, c)

/-- Rounds i, i+1, ..., i+n-1 of the MD5 compression function. -/
def md5RoundsAux (w : List Nat) (i : Nat) :
    Nat → Nat × Nat × Nat × Nat → Nat × Nat × Nat × Nat
  | 0, st => st
  | n + 1, st => md5RoundsAux w (i + 1) n (md5Step w st i)

/-- The 16 little-endian 32-bit words of one 64-byte chunk. -/
def leWords : List Nat → List Nat
  | b0 :: b1 :: b2 :: b3 :: rest =>
    (b0 + 256 * b1 + 65536 * b2 + 16777216 * b3) :: leWords rest
  | _ => []

/-- MD5 compression of one chunk, added onto the running state. -/
def md5Chunk (w : List Nat) (st : Nat × Nat × Nat × Nat) :
    Nat × Nat × Nat × Nat :=
  let (a0, b0, c0, d0) := st
  let (a, b, c, d) := md5RoundsAux w 0 64 (a0, b0, c0, d0)
  ((a0 + a) % 4294967296, (b0 + b) % 4294967296,
   (c0 + c) % 4294967296, (d0 + d) % 4294967296)

/-- Folds n 64-byte chunks of the padded message into the state. -/
def md5Chunks : Nat → List Nat → Nat × Nat × Nat × Nat → Nat × Nat × Nat × Nat
  | 0, _, st => st
  | n + 1, bytes, st =>
    md5Chunks n (bytes.drop 64) (md5Chunk (leWords (bytes.take 64)) st)

/-- The eight little-endian bytes of a 64-bit value. -/
def le8 (n : Nat) : List Nat :=
  [n % 256, n / 256 % 256, n / 65536 % 256, n / 16777216 % 256,
   n / 4294967296 % 256, n / 1099511627776 % 256,
   n / 281474976710656 % 256, n / 72057594037927936 % 256]

/-- The four little-endian bytes of a 32-bit word. -/
def le4 (n : Nat) : List Nat :=
  [n % 256, n / 256 % 256, n / 65536 % 256, n / 16777216 % 256]

/-- MD5 padding: a 0x80 byte, zeros to 56 mod 64, then the bit length as a
64-bit little-endian value. -/
def md5Pad (msg : List Nat) : List Nat :=
  let padZeros := (119 - (msg.length % 64)) % 64
  msg ++ [128] ++ List.replicate padZeros 0 ++ le8 ((8 * msg.length) % 18446744073709551616)

/-- The 16-byte MD5 digest of a byte list. -/
def md5Digest (msg : List Nat) : List Nat :=
  let padded := md5Pad msg
  let (a, b, c, d) := md5Chunks (padded.length / 64) padded
    (1732584193, 4023233417, 2562383102, 271733878)
  le4 a ++ le4 b ++ le4 c ++ le4 d

/-- Lowercase hexadecimal digit. -/
def hexDigitChar (n : Nat) : Char := (strL "0123456789abcdef").getD n '0'

/-- Two-digit lowercase hex of one byte. -/
def byteHex (b : Nat) : Str := [hexDigitChar (b / 16), hexDigitChar (b % 16)]

/-- hashlib.md5(bytes).hexdigest(). -/
def md5HexOfBytes (msg : List Nat) : Str := ((md5Digest msg).map byteHex).flatten

/-- UTF-8 encoding of one character (str.encode in Python). -/
def charUtf8 (c : Char) : List Nat :=
  let n := c.toNat
  if n < 128 then [n]
  else if n < 2048 then [192 + n / 64, 128 + n % 64]
  else if n < 65536 then [224 + n / 4096, 128 + n / 64 % 64, 128 + n % 64]
  else [240 + n / 262144, 128 + n / 4096 % 64, 128 + n / 64 % 64, 128 + n % 64]

/-- UTF-8 encoding of a string. -/
def utf8 (s : Str) : List Nat := (s.map charUtf8).flatten

/-- Sanity check of the embedded MD5 on the RFC 1321 test vector "". -/
theorem md5_rfc1321_empty :
    md5HexOfBytes [] = strL "d41d8cd98f00b204e9800998ecf8427e" := by decide

/-- Sanity check of the embedded MD5 on the RFC 1321 test vector "abc". -/
theorem md5_rfc1321_abc :
    md5HexOfBytes (utf8 (strL "abc")) = strL "900150983cd24fb0d6963f7d28e17f72" := by
  decide

/-! ### JSON values and json.dumps with sort_keys=True

The in-memory JSON data model: objects keep their (unique, in Python)
keys in insertion order; json.dumps(obj, sort_keys=True) with the default
separators produces the canonical serialization both checksum sites hash.
JSON numbers are modelled as integers; the round-trip stability of Python
float repr is not needed by any verified property. -/

mutual
inductive Json where
  | null : Json
  | bool (b : Bool) : Json
  | num (n : Int) : Json
  | str (s : Str) : Json
  | arr (xs : JsonList) : Json
  | obj (kvs : JsonObj) : Json

inductive JsonList where
  | nil : JsonList
  | cons (hd : Json) (tl : JsonList) : JsonList

inductive JsonObj where
  | nil : JsonObj
  | cons (key : Str) (val : Json) (tl : JsonObj) : JsonObj
end

/-- Python string comparison (code-point lexicographic), used by sorted(). -/
def pyStrLt : Str → Str → Bool
  | [], [] => false
  | [], _ :: _ => true
  | _ :: _, [] => false
  | x :: xs, y :: ys => x.toNat < y.toNat || (x = y && pyStrLt xs ys)

/-- Insertion step of sorting an object's keys. -/
def insertKeySorted (k : Str) (v : Json) : JsonObj → JsonObj
  | .nil => .cons k v .nil
  | .cons k2 v2 t =>
    if pyStrLt k2 k then .cons k2 v2 (insertKeySorted k v t)
    else .cons k v (.cons k2 v2 t)

/-- Sorts one object spine by key (Python dict keys are unique, so
stability questions do not arise). -/
def sortObjSpine : JsonObj → JsonObj
  | .nil => .nil
  | .cons k v t => insertKeySorted k v (sortObjSpine t)

mutual
/-- Recursively sorts every object's keys; serializing the result in
order is exactly json.dumps(..., sort_keys=True). -/
def sortAll : Json → Json
  | .arr xs => .arr (sortAllList xs)
  | .obj kvs => .obj (sortObjSpine (sortAllObj kvs))
  | j => j

def sortAllList : JsonList → JsonList
  | .nil => .nil
  | .cons h t => .cons (sortAll h) (sortAllList t)

def sortAllObj : JsonObj → JsonObj
  | .nil => .nil
  | .cons k v t => .cons k (sortAll v) (sortAllObj t)
end

/-- The four hex digits of a \uXXXX escape. -/
def hex4 (n : Nat) : Str :=
  [hexDigitChar (n / 4096 % 16), hexDigitChar (n / 256 % 16),
   hexDigitChar (n / 16 % 16), hexDigitChar (n % 16)]

/-- json.dumps escaping of one character (default ensure_ascii=True). -/
def jsonEscapeChar (c : Char) : Str :=
  if c = '"' then ['\\', '"']
  else if c = '\\' then ['\\', '\\']
  else if c = '\n' then ['\\', 'n']
  else if c = '\r' then ['\\', 'r']
  else if c = '\t' then ['\\', 't']
  else if c = '\x08' then ['\\', 'b']
  else if c = '\x0c' then ['\\', 'f']
  else if 32 ≤ c.toNat && c.toNat < 127 then [c]
  else if c.toNat < 65536 then '\\' :: 'u' :: hex4 c.toNat
  else
    let n := c.toNat - 65536
    '\\' :: 'u' :: hex4 (55296 + n / 1024) ++ '\\' :: 'u' :: hex4 (56320 + n % 1024)

/-- A JSON string literal with quotes and escapes. -/
def jsonQuote (s : Str) : Str :=
  '"' :: (s.map jsonEscapeChar).flatten ++ ['"']

/-- Decimal serialization of a JSON integer. -/
def intStr (n : Int) : Str :=
  if n < 0 then '-' :: Nat.toDigits 10 n.natAbs else Nat.toDigits 10 n.toNat

mutual
/-- Serialization of a (pre-sorted) JSON value with json.dumps' default
separators (", " between items, ": " after keys). -/
def dumpsJson : Json → Str
  | .null => strL "null"
  | .bool true => strL "true"
  | .bool false => strL "false"
  | .num n => intStr n
  | .str s => jsonQuote s
  | .arr xs => '[' :: dumpsList xs ++ [']']
  | .obj kvs => '\x7b' :: dumpsObj kvs ++ ['\x7d']

def dumpsList : JsonList → Str
  | .nil => []
  | .cons h .nil => dumpsJson h
  | .cons h (.cons h2 t) => dumpsJson h ++ strL ", " ++ dumpsList (.cons h2 t)

def dumpsObj : JsonObj → Str
  | .nil => []
  | .cons k v .nil => jsonQuote k ++ strL ": " ++ dumpsJson v
  | .cons k v (.cons k2 v2 t) =>
    jsonQuote k ++ strL ": " ++ dumpsJson v ++ strL ", "
      ++ dumpsObj (.cons k2 v2 t)
end

/-- json.dumps(value, sort_keys=True) with default separators. -/
def pyDumpsSorted (j : Json) : Str := dumpsJson (sortAll j)

/-! ### json_meta_data.py (writer) and
widget/vertical_dimension_util.py (reader) -/

/-- Python dict assignment d[k] = v: replaces in place if the key exists,
appends otherwise. -/
def jsonSetKey : JsonObj → Str → Json → JsonObj
  | .nil, k, v => .cons k v .nil
  | .cons k2 v2 t, k, v =>
    if k2 = k then .cons k2 v t else .cons k2 v2 (jsonSetKey t k v)

/-- Python dict lookup d[k] (first match; keys are unique in Python). -/
def jsonGetKey : JsonObj → Str → Option Json
  | .nil, _ => none
  | .cons k2 v t, k => if k2 = k then some v else jsonGetKey t k

/-- Python del d[k]. -/
def jsonDelKey : JsonObj → Str → JsonObj
  | .nil, _ => .nil
  | .cons k2 v t, k => if k2 = k then t else .cons k2 v (jsonDelKey t k)

/-- widget/vertical_dimension_util.py ConfigFiles.create_md5_checksum
(source lines 160-166): 'md5: ' followed by the hex MD5 of the key-sorted
compact JSON serialization, UTF-8 encoded. -/
def create_md5_checksum (j : Json) : Str :=
  strL "md5: " ++ md5HexOfBytes (utf8 (pyDumpsSorted j))

/-- json_meta_data.set_checksum (source lines 50-57): computes the same
'md5: <hex>' string over the object as it stands and stores it in place
under the checksum key. -/
def set_checksum (m : JsonObj) : JsonObj :=
  jsonSetKey m (strL "checksum")
    (.str (strL "md5: " ++ md5HexOfBytes (utf8 (pyDumpsSorted (.obj m)))))

/-- json_meta_data.write_json_meta (source lines 32-47) at the JSON-value
level: wraps the serialized data under the meta_data key, adds the
checksum, and the resulting object is what reaches the disk file (JSON
round-trips the value unchanged). -/
def write_json_meta (data : Json) : JsonObj :=
  let data_for_disk : JsonObj := .cons (strL "meta_data") data .nil
  set_checksum data_for_disk

/-- widget/vertical_dimension_util.py ConfigFiles.add_json_meta (source
lines 134-158): requires a checksum key, removes it from a copy,
recomputes the checksum over the remainder and compares; errors are the
raised KeyError / RuntimeError. -/
def add_json_meta (file_data : JsonObj) : Except String JsonObj :=
  match jsonGetKey file_data (strL "checksum") with
  | none => .error "KeyError: Can't find checksum to validate immutable metadata"
  | some stored =>
    let immutable_metadata := jsonDelKey file_data (strL "checksum")
    let checksum := create_md5_checksum (.obj immutable_metadata)
    match stored with
    | .str c =>
      if c = checksum then .ok immutable_metadata
      else .error "RuntimeError: Immutable data has been modified by hand"
    | _ => .error "RuntimeError: Immutable data has been modified by hand"

/-! ### Claim C1: the snapshot checksum round-trip -/

/-- C1: for every metadata document, the file written by write_json_meta
holds under checksum exactly 'md5: ' plus the hex MD5 of the key-sorted
serialization of the object holding only the meta_data key (the file
before checksum insertion), and the reader add_json_meta accepts the
freshly written file, returning the payload with the checksum removed. -/
theorem c1_write_json_meta_checksum (d : Json) :
    jsonGetKey (write_json_meta d) (strL "checksum")
      = some (.str (strL "md5: " ++ md5HexOfBytes (utf8 (pyDumpsSorted
          (.obj (.cons (strL "meta_data") d .nil))))))
    ∧ add_json_meta (write_json_meta d)
      = .ok (.cons (strL "meta_data") d .nil) := by
  have hne : ¬ (strL "meta_data" = strL "checksum") := by decide
  have hw : write_json_meta d
      = JsonObj.cons (strL "meta_data") d
          (JsonObj.cons (strL "checksum")
            (.str (strL "md5: " ++ md5HexOfBytes (utf8 (pyDumpsSorted
              (.obj (.cons (strL "meta_data") d .nil)))))) .nil) := by
    unfold write_json_meta set_checksum
    simp only [jsonSetKey]
    rw [if_neg hne]
  have hget : jsonGetKey (write_json_meta d) (strL "checksum")
      = some (.str (strL "md5: " ++ md5HexOfBytes (utf8 (pyDumpsSorted
          (.obj (.cons (strL "meta_data") d .nil)))))) := by
    rw [hw]
    simp only [jsonGetKey]
    rw [if_neg hne]; rw [if_true]
  refine ⟨hget, ?_⟩
  unfold add_json_meta
  rw [hget]
  have hdel : jsonDelKey (write_json_meta d) (strL "checksum")
      = .cons (strL "meta_data") d .nil := by
    rw [hw]
    simp only [jsonDelKey]
    rw [if_neg hne]; rw [if_true]
  rw [hdel]
  simp only [create_md5_checksum]
  rw [if_true]

/-! ### entities.Field and field_validator.py

The entities module itself ships outside the analysed sources (only its
callers and tests are present), so the Field record is modelled from the
spec's data model (section 3): every scalar attribute is optional text and
unset attributes are falsy, exactly as the validator's truth tests treat
them. -/

/-- Modelled from the spec: the external-standard identifiers of
standards.standard_synonyms.StandardSynonyms (module not among the
analysed sources; constructors as exercised by the tests). -/
inductive Standard where
  | CF
  | CMIP6
  | AMIP
  | GRIB
deriving DecidableEq

/-- Modelled from the spec: entities.Field (module not among the analysed
sources).  Attributes default to unset; Python's truthiness test treats
None and the empty string as missing, hence Option Str with falsy below. -/
structure Field where
  file_name : Str
  unique_id : Option Str := none
  standard_name : Option Str := none
  long_name : Option Str := none
  units : Option Str := none
  function_space : Option Str := none
  trigger : Option Str := none
  description : Option Str := none
  data_type : Option Str := none
  time_step : Option Str := none
  recommended_interpolation : Option Str := none
  vertical_dimension : Option VertDim := none
  synonyms : List (Standard × Str) := []
deriving DecidableEq

/-- Python truthiness of an optional string: not x holds for None and "". -/
def falsy : Option Str → Bool
  | none => true
  | some s => s.isEmpty

/-- Does the synonyms mapping carry the given standard as a key? -/
def hasSynonym (f : Field) (st : Standard) : Bool :=
  f.synonyms.any (fun p => p.1 = st)

/-- One constructor per LOGGER.error site of validate_field, in source
order (field_validator.py lines 39-76). -/
inductive VErr where
  /-- A unique id is missing (line 40). -/
  | missingUniqueId
  /-- Neither a standard name nor a long name (line 45). -/
  | missingName
  /-- A unit of measure is missing (line 49). -/
  | missingUnits
  /-- A function space is missing (line 53). -/
  | missingFunctionSpace
  /-- Triggering syntax is missing (line 57). -/
  | missingTrigger
  /-- A description is missing (line 61). -/
  | missingDescription
  /-- A data type is missing (line 65). -/
  | missingDataType
  /-- A time step is missing (line 69). -/
  | missingTimeStep
  /-- A recommended_interpolation attribute is missing (line 73). -/
  | missingRecommendedInterpolation
deriving DecidableEq

/-- field_validator.validate_field (source lines 32-84): every check runs
unconditionally and appends its own error; the external CF / CMIP
validators (whose modules sit outside the analysed sources) are passed in
as functions, faithful to the calls on lines 77-82, and only affect the
returned flag. -/
def validate_field (cf_validate cmip_validate : Field → Bool) (f : Field) :
    Bool × List VErr :=
  let e1 : List VErr := if falsy f.unique_id then [.missingUniqueId] else []
  let e2 : List VErr :=
    if falsy f.standard_name && falsy f.long_name then [.missingName] else []
  let e3 : List VErr := if falsy f.units then [.missingUnits] else []
  let e4 : List VErr :=
    if falsy f.function_space then [.missingFunctionSpace] else []
  let e5 : List VErr := if falsy f.trigger then [.missingTrigger] else []
  let e6 : List VErr :=
    if falsy f.description then [.missingDescription] else []
  let e7 : List VErr := if falsy f.data_type then [.missingDataType] else []
  let e8 : List VErr := if falsy f.time_step then [.missingTimeStep] else []
  let e9 : List VErr :=
    if falsy f.recommended_interpolation
    then [.missingRecommendedInterpolation] else []
  let errs := e1 ++ e2 ++ e3 ++ e4 ++ e5 ++ e6 ++ e7 ++ e8 ++ e9
  let valid := errs.isEmpty
    && !(hasSynonym f .CF && !cf_validate f)
    && !(hasSynonym f .CMIP6 && !cmip_validate f)
  (valid, errs)

/-! ### Claim C7: the field validator aggregates all missing-attribute
errors -/

/-- Counting a different error in a conditional singleton gives zero. -/
theorem verrCountIteNe (c : Prop) [Decidable c] {a b : VErr} (h : ¬ a = b) :
    List.count b (if c then [a] else []) = 0 := by
  split_ifs <;> simp [List.count_cons, List.count_nil, h]

/-- Counting the same error in a conditional singleton mirrors the
condition. -/
theorem verrCountIteEq (c : Prop) [Decidable c] (a : VErr) :
    List.count a (if c then [a] else []) = if c then 1 else 0 := by
  split_ifs <;> simp [List.count_cons, List.count_nil]

/-- C7: a Field missing units, trigger and description is invalid and the
error list counts exactly one distinct missing-attribute error for each of
the three, plus exactly one for every other missing mandatory attribute
and none for a present one (so no check is skipped after an earlier
failure); and a field carrying at least one of standard_name / long_name
never logs the name-presence error. -/
theorem c7_validate_field (cfv cmipv : Field → Bool) (f : Field)
    (hu : falsy f.units = true) (ht : falsy f.trigger = true)
    (hd : falsy f.description = true) :
    (validate_field cfv cmipv f).1 = false
    ∧ (validate_field cfv cmipv f).2.count .missingUnits = 1
    ∧ (validate_field cfv cmipv f).2.count .missingTrigger = 1
    ∧ (validate_field cfv cmipv f).2.count .missingDescription = 1
    ∧ (validate_field cfv cmipv f).2.count .missingUniqueId
        = (if falsy f.unique_id then 1 else 0)
    ∧ (validate_field cfv cmipv f).2.count .missingName
        = (if falsy f.standard_name && falsy f.long_name then 1 else 0)
    ∧ (validate_field cfv cmipv f).2.count .missingFunctionSpace
        = (if falsy f.function_space then 1 else 0)
    ∧ (validate_field cfv cmipv f).2.count .missingDataType
        = (if falsy f.data_type then 1 else 0)
    ∧ (validate_field cfv cmipv f).2.count .missingTimeStep
        = (if falsy f.time_step then 1 else 0)
    ∧ (validate_field cfv cmipv f).2.count .missingRecommendedInterpolation
        = (if falsy f.recommended_interpolation then 1 else 0)
    ∧ ((falsy f.standard_name = false ∨ falsy f.long_name = false) →
        (validate_field cfv cmipv f).2.count .missingName = 0) := by
  unfold validate_field
  dsimp only
  simp only [hu, ht, hd, if_true]
  refine ⟨?_, ?_, ?_, ?_, ?_, ?_, ?_, ?_, ?_, ?_, ?_⟩
  · split_ifs <;> rfl
  · simp [List.count_append, List.count_cons, List.count_nil,
      verrCountIteNe, verrCountIteEq]
  · simp [List.count_append, List.count_cons, List.count_nil,
      verrCountIteNe, verrCountIteEq]
  · simp [List.count_append, List.count_cons, List.count_nil,
      verrCountIteNe, verrCountIteEq]
  · simp [List.count_append, List.count_cons, List.count_nil,
      verrCountIteNe, verrCountIteEq]
  · simp [List.count_append, List.count_cons, List.count_nil,
      verrCountIteNe, verrCountIteEq]
  · simp [List.count_append, List.count_cons, List.count_nil,
      verrCountIteNe, verrCountIteEq]
  · simp [List.count_append, List.count_cons, List.count_nil,
      verrCountIteNe, verrCountIteEq]
  · simp [List.count_append, List.count_cons, List.count_nil,
      verrCountIteNe, verrCountIteEq]
  · simp [List.count_append, List.count_cons, List.count_nil,
      verrCountIteNe, verrCountIteEq]
  · rintro (h | h) <;>
      simp [List.count_append, List.count_cons, List.count_nil,
        verrCountIteNe, verrCountIteEq, h]

/-- Witness for c7_validate_field at a concrete field missing units,
trigger, description, function_space, data_type, time_step and
recommended_interpolation but carrying a unique id and a standard name. -/
theorem c7_validate_field_witness :
    (validate_field (fun _ => true) (fun _ => true)
        { file_name := strL "aerosols__clim__meta_mod.f90",
          unique_id := some (strL "aerosols__so4"),
          standard_name := some (strL "mass_fraction_of_sulfate") }).1 = false
    ∧ (validate_field (fun _ => true) (fun _ => true)
        { file_name := strL "aerosols__clim__meta_mod.f90",
          unique_id := some (strL "aerosols__so4"),
          standard_name := some (strL "mass_fraction_of_sulfate") }).2.count
        .missingUnits = 1
    ∧ (validate_field (fun _ => true) (fun _ => true)
        { file_name := strL "aerosols__clim__meta_mod.f90",
          unique_id := some (strL "aerosols__so4"),
          standard_name := some (strL "mass_fraction_of_sulfate") }).2.count
        .missingName = 0 := by
  obtain ⟨h1, h2, _, _, _, _, _, _, _, _, h11⟩ :=
    c7_validate_field (fun _ => true) (fun _ => true)
      { file_name := strL "aerosols__clim__meta_mod.f90",
        unique_id := some (strL "aerosols__so4"),
        standard_name := some (strL "mass_fraction_of_sulfate") }
      (by decide) (by decide) (by decide)
  exact ⟨h1, h2, h11 (Or.inl (by decide))⟩

/-! ### fortran_reader.find_nsd: the non-spatial dimension registry -/

/-- A field reference (section, group, unique_id) as stored in the fields
list of a registered dimension. -/
abbrev FieldRef := Str × Str × Str

/-- One parsed non-spatial dimension dictionary as produced by
dimension_parser.parse_non_spatial_dimension: the keys other than the
mandatory name are only present when the corresponding attribute occurred,
and dictionary equality is structure equality. -/
structure NSDDef where
  name : Str
  type : Option Str := none
  label_definition : Option (List Str) := none
  axis_definition : Option (List Str) := none
  help : Option Str := none
  unit : Option Str := none
deriving DecidableEq

/-- The reader's non_spatial_dims mapping: name, stored definition and the
fields list, in insertion order. -/
abbrev NsdRegistry := List (Str × NSDDef × List FieldRef)

/-- Python dict lookup in the registry. -/
def regLookup : NsdRegistry → Str → Option (NSDDef × List FieldRef)
  | [], _ => none
  | (k, dfn, fs) :: t, k2 => if k = k2 then some (dfn, fs) else regLookup t k2

/-- Replaces the fields list of the entry stored under a name. -/
def regSetFields : NsdRegistry → Str → List FieldRef → NsdRegistry
  | [], _, _ => []
  | (k, dfn, fs) :: t, k2, fs2 =>
    if k = k2 then (k, dfn, fs2) :: t else (k, dfn, fs) :: regSetFields t k2 fs2

/-- One logged line of the mismatch loop in find_nsd (source lines
355-361): dimension name, new field id, stored dimension name, previously
stored field id. -/
structure NsdMismatchLog where
  dimName : Str
  fieldId : Str
  storedDimName : Str
  storedFieldId : Str
deriving DecidableEq

/-- Registration of one parsed dimension for one field, following
fortran_reader.find_nsd (source lines 338-373): the stored entry is
compared after popping its fields list; a structural match appends the
field reference unless already present; a mismatch logs one error per
stored field and raises, the error payload carrying the raise arguments
(dimension name, field id, stored dimension name). -/
def find_nsd_register (reg : NsdRegistry) (nsd : NSDDef) (ref : FieldRef) :
    Except (List NsdMismatchLog × (Str × Str × Str)) NsdRegistry :=
  match regLookup reg nsd.name with
  | some (stored_dim, stored_fields) =>
    if nsd = stored_dim then
      if ref ∈ stored_fields then .ok reg
      else .ok (regSetFields reg nsd.name (stored_fields ++ [ref]))
    else
      .error
        (stored_fields.map (fun sf =>
          { dimName := nsd.name, fieldId := ref.2.2,
            storedDimName := stored_dim.name, storedFieldId := sf.2.2 }),
         (nsd.name, ref.2.2, stored_dim.name))
  | none => .ok (reg ++ [(nsd.name, nsd, [ref])])

/-! ### Claim C5: identical re-registration accumulates fields
idempotently -/

/-- C5: registering a definition for field A and then the structurally
identical definition for a distinct field B leaves exactly one entry whose
fields list is [A, B] in first-seen order with no error, and registering
the same reference B again returns the registry unchanged. -/
theorem c5_find_nsd_identical (D : NSDDef) (A B : FieldRef) (hAB : A ≠ B) :
    find_nsd_register [] D A = .ok [(D.name, D, [A])]
    ∧ find_nsd_register [(D.name, D, [A])] D B = .ok [(D.name, D, [A, B])]
    ∧ find_nsd_register [(D.name, D, [A, B])] D B
      = .ok [(D.name, D, [A, B])] := by
  refine ⟨?_, ?_, ?_⟩
  · simp [find_nsd_register, regLookup]
  · simp [find_nsd_register, regLookup, regSetFields]
    intro hBA
    exact absurd hBA.symm hAB
  · simp [find_nsd_register, regLookup]

/-- Witness for c5_find_nsd_identical at a concrete definition and two
concrete field references. -/
theorem c5_find_nsd_identical_witness :
    find_nsd_register [] { name := strL "foo" }
        (strL "sec", strL "grp", strL "sec__a")
      = .ok [(strL "foo", { name := strL "foo" },
              [(strL "sec", strL "grp", strL "sec__a")])]
    ∧ find_nsd_register
        [(strL "foo", { name := strL "foo" },
          [(strL "sec", strL "grp", strL "sec__a")])]
        { name := strL "foo" } (strL "sec", strL "grp", strL "sec__b")
      = .ok [(strL "foo", { name := strL "foo" },
              [(strL "sec", strL "grp", strL "sec__a"),
               (strL "sec", strL "grp", strL "sec__b")])]
    ∧ find_nsd_register
        [(strL "foo", { name := strL "foo" },
          [(strL "sec", strL "grp", strL "sec__a"),
           (strL "sec", strL "grp", strL "sec__b")])]
        { name := strL "foo" } (strL "sec", strL "grp", strL "sec__b")
      = .ok [(strL "foo", { name := strL "foo" },
              [(strL "sec", strL "grp", strL "sec__a"),
               (strL "sec", strL "grp", strL "sec__b")])] :=
  c5_find_nsd_identical { name := strL "foo" }
    (strL "sec", strL "grp", strL "sec__a")
    (strL "sec", strL "grp", strL "sec__b") (by decide)

/-! ### Claim C4: conflicting re-registration is a hard failure naming
every prior field -/

/-- C4: once fields A and B are attached to the stored definition D, a
structurally different definition under the same name presented for field
C raises (error result, not a log-and-continue), and the logged errors
name exactly the prior fields A and B against the new definition. -/
theorem c4_find_nsd_conflict (D Dn : NSDDef) (A B C : FieldRef)
    (hname : Dn.name = D.name) (hdiff : Dn ≠ D) :
    find_nsd_register [(D.name, D, [A, B])] Dn C
      = .error
          ([{ dimName := Dn.name, fieldId := C.2.2,
              storedDimName := D.name, storedFieldId := A.2.2 },
            { dimName := Dn.name, fieldId := C.2.2,
              storedDimName := D.name, storedFieldId := B.2.2 }],
           (Dn.name, C.2.2, D.name)) := by
  unfold find_nsd_register
  rw [hname]
  simp only [regLookup, if_true]
  rw [if_neg hdiff]
  rfl

/-- Witness for c4_find_nsd_conflict: the stored axis dimension foo with
fields sec__a and sec__b, challenged by a label variant of foo for field
sec__c. -/
theorem c4_find_nsd_conflict_witness :
    find_nsd_register
        [(strL "foo", { name := strL "foo", type := some (strL "axis_definition") },
          [(strL "sec", strL "grp", strL "sec__a"),
           (strL "sec", strL "grp", strL "sec__b")])]
        { name := strL "foo", type := some (strL "label_definition") }
        (strL "sec", strL "grp", strL "sec__c")
      = .error
          ([{ dimName := strL "foo", fieldId := strL "sec__c",
              storedDimName := strL "foo", storedFieldId := strL "sec__a" },
            { dimName := strL "foo", fieldId := strL "sec__c",
              storedDimName := strL "foo", storedFieldId := strL "sec__b" }],
           (strL "foo", strL "sec__c", strL "foo")) :=
  c4_find_nsd_conflict
    { name := strL "foo", type := some (strL "axis_definition") }
    { name := strL "foo", type := some (strL "label_definition") }
    (strL "sec", strL "grp", strL "sec__a")
    (strL "sec", strL "grp", strL "sec__b")
    (strL "sec", strL "grp", strL "sec__c") (by decide) (by decide)

/-! ### fortran_reader.read_fortran_files

The per-file loop of read_fortran_files (source lines 126-181) is embedded
up to the point it can reach.  Local variables live in an explicit
environment so that reading a name the code never assigned surfaces as a
NameError, exactly as in Python: the regex groups are bound to
section_name and group_name (lines 145-147), but line 149 reads
file_section_name.  The per-record extraction of lines 158-177 sits behind
that read and is therefore unreachable (pyLocals_unbound below); the
embedding keeps a minimal continuation for it. -/

/-- A group of fields (entities.Group, modelled from the spec as a named,
file-tagged field container). -/
structure GroupObj where
  name : Str
  file_name : Str
  fields : List Field
deriving DecidableEq

/-- A section (entities.Section, modelled from the spec). -/
structure SectionObj where
  name : Str
  groups : List GroupObj
deriving DecidableEq

/-- The Python exceptions distinguished by the embedding: fparser parse
failures (the only kind the per-file handler catches), NameError from an
unbound local, TypeError from a bad call. -/
inductive PyExc where
  | fparser
  | nameError (var : String)
  | typeError (msg : String)
deriving DecidableEq

/-- Outcome of F2003_PARSER on one file, together with the result
validate_naming would produce on its tree. -/
inductive ParseOutcome where
  | fparserFail
  | parsed (namingValid : Bool)
deriving DecidableEq

/-- One discovered file: its path and how parsing it turns out. -/
structure FileInput where
  path : Str
  parse : ParseOutcome
deriving DecidableEq

/-- Mutable state of the read_fortran_files loop: the sections dictionary
and the document-wide valid flag. -/
structure ReaderState where
  sections : List (Str × SectionObj)
  valid : Bool
deriving DecidableEq

/-- file_path[file_path.rfind("/") + 1:]. -/
def basenameOf (path : Str) : Str :=
  (path.reverse.takeWhile (· ≠ '/')).reverse

/-- The .*90 tail of fortran_reader's FILE_NAME_REGEX: any characters
except newline, then the literal 90 (only matchability matters to
re.search). -/
def dotStarThen90 : Str → Bool
  | [] => false
  | c :: t => (strL "90").isPrefixOf (c :: t) || (c ≠ '\n' && dotStarThen90 t)

/-- Suffix matcher of fortran_reader's FILE_NAME_REGEX:
__meta_mod followed by .*90. -/
def frFileSfx (r : Str) : Bool :=
  (strL "__meta_mod").isPrefixOf r && dotStarThen90 (r.drop 10)

/-- re.search with fortran_reader's FILE_NAME_REGEX
([a-zA-Z_0-9]+?)__([a-zA-Z_0-9]+)__meta_mod.*90. -/
def frFileNameSearch : Str → Option (Str × Str) := pairSearch frFileSfx

/-- The local variables assigned by source lines 145-147 before the
failing read on line 149. -/
def pyLocals (section_name group_name file_name : Str) :
    List (String × Str) :=
  [("section_name", section_name), ("group_name", group_name),
   ("file_name", file_name)]

/-- Reading a local variable; an unbound name is a NameError in Python. -/
def lookupLocal (env : List (String × Str)) (x : String) : Option Str :=
  (env.find? (fun p => p.1 = x)).map (fun p => p.2)

/-- The environment of lines 145-147 never binds file_section_name, for
any values of the three assigned variables. -/
theorem pyLocals_unbound (a b c : Str) :
    lookupLocal (pyLocals a b c) "file_section_name" = none := rfl

/-- Result of one iteration of the file loop: continue, break out of the
loop, or an exception that the except FparserException handler does not
catch. -/
inductive LoopRes where
  | next (st : ReaderState)
  | brk (st : ReaderState)
  | raised (e : PyExc) (st : ReaderState)
deriving DecidableEq

/-- One iteration of the loop of read_fortran_files (source lines
126-181).  An FparserException is caught, logged and cleared into the
valid flag; a non-matching path logs and breaks (line 143); a matching
path reaches line 149, which reads the unassigned file_section_name. -/
def processOne (st : ReaderState) (f : FileInput) : LoopRes :=
  match f.parse with
  | .fparserFail => .next { st with valid := false }
  | .parsed namingValid =>
    let st1 := if namingValid then st else { st with valid := false }
    match frFileNameSearch f.path with
    | none => .brk { st1 with valid := false }
    | some (section_name, group_name) =>
      let env := pyLocals section_name group_name (basenameOf f.path)
      match lookupLocal env "file_section_name" with
      | none => .raised (.nameError "file_section_name") st1
      | some fsn =>
        -- dead branch (pyLocals_unbound): lines 149-177 would attach the
        -- section here and process the file's records
        .next { st1 with
                sections := st1.sections ++ [(fsn, { name := fsn, groups := [] })] }

/-- The file loop; an uncaught exception aborts it with the state at the
point of the raise. -/
def readLoop : ReaderState → List FileInput →
    Except (PyExc × ReaderState) ReaderState
  | st, [] => .ok st
  | st, f :: fs =>
    match processOne st f with
    | .next st2 => readLoop st2 fs
    | .brk st2 => .ok st2
    | .raised e st2 => .error (e, st2)

/-- read_fortran_files over the sorted file list: on normal termination it
returns the sections dictionary (the part of the meta_data result the
claims concern) and the valid flag; an uncaught exception propagates. -/
def read_fortran_files (files : List FileInput) :
    Except (PyExc × ReaderState) (List (Str × SectionObj) × Bool) :=
  match readLoop { sections := [], valid := true } files with
  | .ok st => .ok (st.sections, st.valid)
  | .error p => .error p

/-- Does this file get past the except FparserException handler? -/
def isParsedFile (f : FileInput) : Bool :=
  match f.parse with
  | .fparserFail => false
  | .parsed _ => true

/-! ### Claim C3: the unconditional NameError -/

/-- Loop invariant behind c3: as long as every file before the first
successfully parsed one fails in fparser, the loop raises the
file_section_name NameError with the sections dictionary still in its
initial (empty) state. -/
theorem readLoop_nameError (files : List FileInput) (f : FileInput)
    (h1 : files.find? isParsedFile = some f)
    (h2 : frFileNameSearch f.path ≠ none) :
    ∀ st : ReaderState, st.sections = [] →
      ∃ st2, readLoop st files
          = .error (.nameError "file_section_name", st2)
        ∧ st2.sections = [] := by
  induction files with
  | nil => cases h1
  | cons g gs ih =>
    intro st hst
    rw [List.find?_cons] at h1
    cases hg : isParsedFile g with
    | false =>
      rw [hg] at h1
      have hparse : g.parse = .fparserFail := by
        unfold isParsedFile at hg
        cases hp : g.parse with
        | fparserFail => rfl
        | parsed nv => rw [hp] at hg; cases hg
      have : readLoop st (g :: gs) = readLoop { st with valid := false } gs := by
        simp only [readLoop, processOne, hparse]
      rw [this]
      exact ih h1 { st with valid := false } hst
    | true =>
      rw [hg] at h1
      cases h1
      have hparse : ∃ nv, f.parse = .parsed nv := by
        unfold isParsedFile at hg
        cases hp : f.parse with
        | fparserFail => rw [hp] at hg; cases hg
        | parsed nv => exact ⟨nv, rfl⟩
      obtain ⟨nv, hparse⟩ := hparse
      obtain ⟨sg, hsg⟩ : ∃ p, frFileNameSearch f.path = some p := by
        cases hp : frFileNameSearch f.path with
        | none => exact absurd hp h2
        | some p => exact ⟨p, rfl⟩
      refine ⟨if nv then st else { st with valid := false }, ?_, ?_⟩
      · simp only [readLoop, processOne, hparse, hsg, pyLocals_unbound]
      · cases nv <;> simpa using hst

/-- C3: whenever the first file to survive fparser parsing has a path
matched by FILE_NAME_REGEX, read_fortran_files raises the uncaught
NameError for file_section_name (the handler only catches
FparserException), aborting the whole run before any Section or Group has
been attached. -/
theorem c3_read_fortran_files_name_error (files : List FileInput)
    (f : FileInput) (h1 : files.find? isParsedFile = some f)
    (h2 : frFileNameSearch f.path ≠ none) :
    ∃ st, read_fortran_files files
        = .error (.nameError "file_section_name", st)
      ∧ st.sections = [] := by
  obtain ⟨st2, hloop, hsec⟩ :=
    readLoop_nameError files f h1 h2 { sections := [], valid := true } rfl
  exact ⟨st2, by unfold read_fortran_files; rw [hloop], hsec⟩

/-- Witness for c3_read_fortran_files_name_error: one fparser-failing file
followed by a well-named file that parses. -/
theorem c3_read_fortran_files_name_error_witness :
    ∃ st, read_fortran_files
        [{ path := strL "lfric/source/diagnostics_meta/broken__file__meta_mod.f90",
           parse := .fparserFail },
         { path := strL "lfric/source/diagnostics_meta/sec__grp__meta_mod.f90",
           parse := .parsed true }]
        = .error (.nameError "file_section_name", st)
      ∧ st.sections = [] :=
  c3_read_fortran_files_name_error _
    { path := strL "lfric/source/diagnostics_meta/sec__grp__meta_mod.f90",
      parse := .parsed true }
    (by decide) (by decide)

/-! ### diag_meta_gen.run: the serialization tail -/

/-- Number of parameters of rose_config_creator.create_rose_meta
(meta_data, directory, file_name -- source line 39). -/
def create_rose_meta_arity : Nat := 3

/-- Number of positional arguments diag_meta_gen.run passes to
create_rose_meta (meta_data, metadata_file_name -- source line 226). -/
def run_create_rose_meta_call_args : Nat := 2

/-- Observable actions of the tail of diag_meta_gen.run
(source lines 218-231), in program order. -/
inductive RunEvent where
  | logInvalid
  | logCreatingFiles
  | makedirs
  | confWritten (file_name : Str)
  | macroAdded
  | widgetAdded
  | jsonWritten
deriving DecidableEq

/-- Is the event one of the two output artifacts (config schema file or
JSON snapshot)? -/
def isOutputWrite : RunEvent → Bool
  | .confWritten _ => true
  | .jsonWritten => true
  | _ => false

/-- The tail of diag_meta_gen.run after read_fortran_files returns
(source lines 218-231): the invalid branch only logs; the valid branch
makes the output directory and then calls create_rose_meta with two
positional arguments against its three-parameter signature, which Python
rejects with a TypeError before anything is written. -/
def run_serialization (valid : Bool) (metadata_file_name : Str) :
    List RunEvent × Option PyExc :=
  if valid = false then ([.logInvalid], none)
  else if run_create_rose_meta_call_args = create_rose_meta_arity then
    ([.logCreatingFiles, .makedirs, .confWritten metadata_file_name,
      .macroAdded, .widgetAdded, .jsonWritten], none)
  else
    ([.logCreatingFiles, .makedirs],
     some (.typeError
       "create_rose_meta() missing 1 required positional argument: 'file_name'"))

/-! ### Claim C9: no output for an invalid run -/

/-- C9: when the document-wide valid flag is false, run only logs; neither
the config-schema file nor the JSON snapshot is written (no output-write
event occurs). -/
theorem c9_run_invalid_writes_nothing (metadata_file_name : Str) :
    run_serialization false metadata_file_name = ([.logInvalid], none)
    ∧ ((run_serialization false metadata_file_name).1.all
        (fun e => !isOutputWrite e)) = true :=
  ⟨rfl, rfl⟩

/-! ### Claim C10: the valid branch dies on the create_rose_meta call -/

/-- C10: run invokes create_rose_meta with two positional arguments though
its definition takes three, so on the valid branch the call raises a
TypeError after makedirs; no config-schema file and no JSON snapshot is
produced through this entry point. -/
theorem c10_run_valid_type_error (metadata_file_name : Str) :
    run_create_rose_meta_call_args = 2
    ∧ create_rose_meta_arity = 3
    ∧ run_serialization true metadata_file_name
      = ([.logCreatingFiles, .makedirs],
         some (.typeError
           "create_rose_meta() missing 1 required positional argument: 'file_name'"))
    ∧ ((run_serialization true metadata_file_name).1.all
        (fun e => !isOutputWrite e)) = true :=
  ⟨rfl, rfl, rfl, rfl⟩

/-! ### rose_config_creator: the model_levels_for_group block

The block of create_rose_meta at source lines 66-86 collects every
top_arg / bottom_arg of the group's fields into a Python set and then
iterates that set.  Iteration order of a set of strings is not an
invariant of the program: it depends on the per-process string hash seed,
so the embedding takes the iteration order as a parameter (any permutation
of the collected elements is a possible order). -/

/-- set.add: contents in first-insertion order. -/
def model_levels_insert (levels : List Str) (x : Str) : List Str :=
  if x ∈ levels then levels else levels ++ [x]

/-- The model_levels set built by source lines 66-73: top_arg then
bottom_arg of each field's vertical dimension, fields in group order. -/
def group_model_levels (fields : List Field) : List Str :=
  fields.foldl (fun acc f =>
    match f.vertical_dimension with
    | none => acc
    | some vd =>
      let acc1 := match vd.top_arg with
        | some t => model_levels_insert acc t
        | none => acc
      match vd.bottom_arg with
      | some b => model_levels_insert acc1 b
      | none => acc1) []

/-- The model_levels_for_group block emitted at source lines 74-86, with
the set's iteration order supplied as setIter. -/
def model_levels_block (setIter : List Str → List Str)
    (sectionName groupName : Str) (fields : List Field) : Str :=
  strL "\n[field_config:" ++ sectionName ++ strL ":" ++ groupName
    ++ strL "=model_levels_for_group]\n"
    ++ strL "title=Model Levels used by this group\n"
    ++ strL "description=Vertical dimensions must define these levels to be valid\n"
    ++ strL "values=\n"
    ++ ((setIter (group_model_levels fields)).map
        (fun l => strL "            " ++ l ++ strL "\n")).flatten
    ++ strL "\nsort-key=01\ncompulsory=true\n"

/-- A one-field group whose vertical dimension uses two distinct model
level markers. -/
def c2ExampleFields : List Field :=
  [{ file_name := strL "sec__grp__meta_mod.f90",
     unique_id := some (strL "sec__field_a"),
     vertical_dimension := some
       { top_arg := some (strL "TOP_WET_LEVEL"),
         bottom_arg := some (strL "BOTTOM_LEVEL"),
         level_definition := none, units := strL "m",
         positive := strL "POSITIVE_UP", standard_name := strL "height" } }]

/-! ### Claim C2: determinism of the emitted schema -/

/-- C2 (refuting evidence): for a group with two collected model level
markers, reversing the set contents is a permutation of them (hence a
possible iteration order of the Python set under another hash seed), and
the two orders yield different model_levels_for_group blocks, so the
emitted bytes are not an invariant of the input. -/
theorem c2_model_levels_order_dependent :
    group_model_levels c2ExampleFields
      = [strL "TOP_WET_LEVEL", strL "BOTTOM_LEVEL"]
    ∧ (group_model_levels c2ExampleFields).reverse.Perm
        (group_model_levels c2ExampleFields)
    ∧ model_levels_block id (strL "sec") (strL "grp") c2ExampleFields
      ≠ model_levels_block List.reverse (strL "sec") (strL "grp")
          c2ExampleFields := by
  refine ⟨by decide, by decide, by decide⟩

end RosePicker
